import Mathlib

/-!
Verification of the VoxAura conversational-turn pipeline.

The definitions below are a shallow embedding of the Python sources:
  - `services/llm_service.py`  (skill detection and dispatch in `generate_response`,
    reply truncation for TTS),
  - `app.py`                   (the `/agent/chat/<session_id>` endpoint `agent_chat`,
    its in-memory `chat_sessions` store),
  - `services/web_search_service.py` (`search_web` and its knowledge fallback),
  - `services/tts_service.py`  (`generate_speech` persona voice selection),
  - `main.py`                  (`handle_test_request` Day-21 audio chunk streaming).

External collaborators (Gemini, AssemblyAI STT, Murf/gTTS, DuckDuckGo) are modelled
as explicit outcome parameters: the embedded functions take the collaborator's
result as an input and reproduce the source's control flow around it exactly.
-/

/-- Occurrence of `needle` as a contiguous sublist of the second argument:
a prefix match at the current position, or a match further right. -/
def list_contains_sub (needle : List Char) : List Char → Bool
  | [] => needle.isEmpty
  | c :: rest => needle.isPrefixOf (c :: rest) || list_contains_sub needle rest

/-- Python `needle in haystack` on strings: substring containment,
matching CPython semantics (the empty string is contained in everything). -/
def py_in (needle haystack : String) : Bool :=
  list_contains_sub needle.toList haystack.toList

/-- Python `s.lower()` (all source utterances are ASCII, where `Char.toLower`
agrees with `str.lower`). -/
def py_lower (s : String) : String :=
  String.mk (s.toList.map Char.toLower)

/-! ## Skill detection (`services/llm_service.py`) -/

/-- The five outcomes of skill classification inside
`LLMService.generate_response` (llm_service.py lines 103-121): the four
special-skill handlers tried in order, then the generic Gemini chat path. -/
inductive Skill
  | document
  | weather
  | search
  | study
  | generic
deriving DecidableEq, Repr

/-- `pdf_keywords` of `_handle_pdf_request` (llm_service.py line 880). -/
def pdf_keywords : List String :=
  ["pdf", "document", "summarize document", "analyze document", "upload", "file processing"]

/-- `document_indicators` of `_handle_pdf_request` (llm_service.py line 881). -/
def document_indicators : List String :=
  ["uploading document", "upload document", "process pdf", "analyze pdf"]

/-- The trigger check of `_handle_pdf_request` (llm_service.py line 882):
any `pdf_keywords` member or any `document_indicators` member occurs in the
lowercased message.  When it holds, every branch of the handler returns a
response dict (never `None`), so the handler answers the utterance. -/
def pdf_request_detected (message : String) : Bool :=
  let message_lower := py_lower message
  pdf_keywords.any (fun k => py_in k message_lower)
    || document_indicators.any (fun k => py_in k message_lower)

/-- `weather_keywords` of `_handle_weather_request` (llm_service.py line 436). -/
def weather_keywords : List String :=
  ["weather", "temperature", "rain", "sunny", "cloudy", "forecast", "humidity", "wind"]

/-- `document_exclusions` of `_handle_weather_request` (llm_service.py line 437). -/
def document_exclusions : List String :=
  ["pdf", "document", "upload", "file", "summarize document"]

/-- Auxiliary: some weather keyword occurs in the lowercased message
(the positive half of the weather trigger check). -/
def weather_keyword_hit (message : String) : Bool :=
  weather_keywords.any (fun k => py_in k (py_lower message))

/-- Auxiliary: some document-exclusion term occurs in the lowercased message. -/
def document_exclusion_hit (message : String) : Bool :=
  document_exclusions.any (fun k => py_in k (py_lower message))

/-- The trigger check of `_handle_weather_request` (llm_service.py lines 438-439):
a weather keyword occurs and no document-exclusion term occurs.  When it holds,
every branch of the handler returns a response dict (never `None`). -/
def weather_request_detected (message : String) : Bool :=
  weather_keyword_hit message && !document_exclusion_hit message

/-- `search_keywords` of `_handle_search_request` (llm_service.py line 650). -/
def search_keywords : List String :=
  ["search for", "look up", "find information", "google", "what is", "who is", "tell me about"]

/-- `is_search_request` of `_handle_search_request` (llm_service.py line 665):
some search trigger phrase occurs in the lowercased message.  Note that the
`"?"`-based rule at lines 764-766 lives in `_extract_search_query`, which runs
only after this check has already succeeded; it does not trigger the skill. -/
def search_request_detected (message : String) : Bool :=
  search_keywords.any (fun k => py_in k (py_lower message))

/-- `study_keywords` of `_handle_study_request` (llm_service.py line 784). -/
def study_keywords : List String :=
  ["summarize", "summary", "explain", "concept", "flashcard", "quiz", "study", "learn",
   "document", "article"]

/-- The trigger check of `_handle_study_request` (llm_service.py line 792). -/
def study_request_detected (message : String) : Bool :=
  study_keywords.any (fun k => py_in k (py_lower message))

/-- `_handle_pdf_request` viewed at the dispatch level: `some .document` exactly
when its trigger check fires (every firing branch returns a dict), else `None`. -/
def handle_pdf_request (message : String) : Option Skill :=
  if pdf_request_detected message then some .document else none

/-- `_handle_weather_request` at the dispatch level. -/
def handle_weather_request (message : String) : Option Skill :=
  if weather_request_detected message then some .weather else none

/-- `_handle_search_request` at the dispatch level. -/
def handle_search_request (message : String) : Option Skill :=
  if search_request_detected message then some .search else none

/-- `_handle_study_request` at the dispatch level. -/
def handle_study_request (message : String) : Option Skill :=
  if study_request_detected message then some .study else none

/-- The classification cascade of `LLMService.generate_response`
(llm_service.py lines 103-121): PDF handler first, then weather, then web
search, then study assistant; each `if result: return result` short-circuits,
and only when all four return `None` does the generic Gemini path run. -/
def generate_response_skill (user_message : String) : Skill :=
  match handle_pdf_request user_message with
  | some s => s
  | none =>
    match handle_weather_request user_message with
    | some s => s
    | none =>
      match handle_search_request user_message with
      | some s => s
      | none =>
        match handle_study_request user_message with
        | some s => s
        | none => .generic

/-! ## Reply truncation for TTS (`generate_response`, llm_service.py lines 149-152) -/

/-- The truncation applied to the generic-path reply before it is returned
(and then handed to `tts_service.generate_speech` by `app.py`):
`if len(response_text) > 3000: response_text = response_text[:2900] + "..."`. -/
def truncate_for_tts (response_text : String) : String :=
  if response_text.length > 3000 then response_text.take 2900 ++ "..." else response_text

/-- Helper: the dispatch cascade written as nested conditionals, proved equal
to the handler composition. -/
theorem generate_response_skill_def (msg : String) :
    generate_response_skill msg =
      if pdf_request_detected msg then .document
      else if weather_request_detected msg then .weather
      else if search_request_detected msg then .search
      else if study_request_detected msg then .study
      else .generic := by
  unfold generate_response_skill handle_pdf_request handle_weather_request
    handle_search_request handle_study_request
  by_cases h1 : pdf_request_detected msg <;> by_cases h2 : weather_request_detected msg <;>
    by_cases h3 : search_request_detected msg <;> by_cases h4 : study_request_detected msg <;>
      simp [h1, h2, h3, h4]

/-- C1: skill classification consults document > weather > search > study >
generic in fixed order and the first match wins; in particular an utterance
matching both the document keyword set and the weather keyword set is
classified as `document`, never `weather`. -/
theorem skill_priority_document_over_weather (msg : String)
    (hdoc : pdf_request_detected msg = true)
    (hwea : weather_keyword_hit msg = true) :
    generate_response_skill msg = Skill.document ∧
      generate_response_skill msg ≠ Skill.weather := by
  rw [generate_response_skill_def, if_pos hdoc]
  exact ⟨rfl, by simp⟩

/-- Witness for C1: an utterance containing both the document keyword
`"document"` and the weather keyword `"weather"`. -/
theorem skill_priority_document_over_weather_witness :
    generate_response_skill "Can you summarize the document about the weather?" = Skill.document ∧
      generate_response_skill "Can you summarize the document about the weather?" ≠ Skill.weather :=
  skill_priority_document_over_weather _ (by decide) (by decide)

/-- C3: a generic-path reply longer than 3000 characters is replaced by its
first 2900 characters followed by an ellipsis before being returned for
synthesis; a reply of at most 3000 characters is passed through unchanged
(llm_service.py lines 150-151). -/
theorem reply_truncation_contract (s : String) :
    (3000 < s.length → truncate_for_tts s = s.take 2900 ++ "...") ∧
    (s.length ≤ 3000 → truncate_for_tts s = s) := by
  refine ⟨fun h => ?_, fun h => ?_⟩
  · unfold truncate_for_tts
    rw [if_pos h]
  · unfold truncate_for_tts
    rw [if_neg (by omega)]

/-- Witness for C3: a 3001-character reply is truncated, a short reply is not. -/
theorem reply_truncation_contract_witness :
    truncate_for_tts (String.mk (List.replicate 3001 'a'))
        = (String.mk (List.replicate 3001 'a')).take 2900 ++ "..." ∧
      truncate_for_tts "All good." = "All good." :=
  ⟨(reply_truncation_contract _).1
      (by show 3000 < (List.replicate 3001 'a').length
          rw [List.length_replicate]
          omega),
   (reply_truncation_contract _).2 (by decide)⟩

/-- C4 counterexample: `"Will you sing me a song today?"` ends in `"?"`, has
more than 5 characters (the length bound used at llm_service.py line 765), and
matches neither the document nor the weather skill, yet the search skill does
not trigger — the code checks only the trigger phrases, so the utterance falls
through to generic chat, refuting the claim that it is classified as search. -/
theorem search_question_mark_counterexample :
    "Will you sing me a song today?".toList.getLast? = some '?' ∧
      5 < "Will you sing me a song today?".length ∧
      pdf_request_detected "Will you sing me a song today?" = false ∧
      weather_request_detected "Will you sing me a song today?" = false ∧
      search_request_detected "Will you sing me a song today?" = false ∧
      generate_response_skill "Will you sing me a song today?" = Skill.generic := by
  decide

/-- C4 (amended): the search skill triggers exactly on the trigger phrases
`"search for"`, `"look up"`, `"find information"`, `"google"`, `"what is"`,
`"who is"`, `"tell me about"`; an utterance ending in `"?"` of sufficient
length that contains none of them does not trigger the search skill — the
`"?"` rule participates only in query extraction after detection. -/
theorem search_skill_requires_trigger_phrase (msg : String)
    (hq : msg.toList.getLast? = some '?')
    (hlen : 5 < msg.length)
    (hkw : search_keywords.all (fun k => !py_in k (py_lower msg)) = true) :
    search_request_detected msg = false ∧
      generate_response_skill msg ≠ Skill.search := by
  have hs : search_request_detected msg = false := by
    unfold search_request_detected
    rw [List.any_eq_false]
    intro k hk
    have hx := List.all_eq_true.mp hkw k hk
    simpa using hx
  refine ⟨hs, ?_⟩
  rw [generate_response_skill_def]
  split_ifs <;> simp_all

/-- Witness for the amended C4. -/
theorem search_skill_requires_trigger_phrase_witness :
    search_request_detected "Will you sing me a song today?" = false ∧
      generate_response_skill "Will you sing me a song today?" ≠ Skill.search :=
  search_skill_requires_trigger_phrase _ (by decide) (by decide) (by decide)

/-- C5: an utterance containing a weather keyword together with a
document-exclusion term is not matched by the weather skill
(llm_service.py lines 438-439), so the weather handler never answers it. -/
theorem weather_document_exclusion (msg : String)
    (hw : weather_keyword_hit msg = true)
    (he : document_exclusion_hit msg = true) :
    weather_request_detected msg = false ∧
      generate_response_skill msg ≠ Skill.weather := by
  have hwd : weather_request_detected msg = false := by
    unfold weather_request_detected
    rw [hw, he]
    rfl
  refine ⟨hwd, ?_⟩
  rw [generate_response_skill_def]
  split_ifs <;> simp_all

/-- Witness for C5: `"weather"` plus the exclusion term `"document"`. -/
theorem weather_document_exclusion_witness :
    weather_request_detected "What does the document say about the weather?" = false ∧
      generate_response_skill "What does the document say about the weather?" ≠ Skill.weather :=
  weather_document_exclusion _ (by decide) (by decide)

/-! ## Session store and the `/agent/chat/<session_id>` turn (`app.py`) -/

/-- Message roles stored in `chat_sessions[sid]["messages"]`. -/
inductive Role
  | user
  | assistant
deriving DecidableEq, Repr

/-- One transcript entry (`app.py` lines 232-237, 253-257, 273-278).  The
optional Python dict keys `transcription_error` / `llm_error` are modelled as
Booleans defaulting to `false` when the key is absent. -/
structure Message where
  role : Role
  content : String
  timestamp : Nat
  transcription_error : Bool := false
  llm_error : Bool := false
deriving DecidableEq, Repr

/-- One entry of the in-memory `chat_sessions` dict (`app.py` lines 216-221). -/
structure Session where
  messages : List Message
  created_at : Nat
deriving DecidableEq, Repr

/-- The `chat_sessions` dict, as an association list keyed by session id. -/
abbrev ChatSessions := List (String × Session)

/-- Dict lookup `chat_sessions.get(sid)`. -/
def lookup_session : ChatSessions → String → Option Session
  | [], _ => none
  | (k, s) :: rest, sid => if k = sid then some s else lookup_session rest sid

/-- Dict assignment `chat_sessions[sid] = s` (update in place, else append). -/
def set_session : ChatSessions → String → Session → ChatSessions
  | [], sid, s => [(sid, s)]
  | (k, t) :: rest, sid, s =>
      if k = sid then (k, s) :: rest else (k, t) :: set_session rest sid s

/-- `app.py` lines 216-221: `if session_id not in chat_sessions:` create a
fresh Session with empty messages and the current time as `created_at`. -/
def get_or_create (store : ChatSessions) (sid : String) (now : Nat) : ChatSessions :=
  match lookup_session store sid with
  | some _ => store
  | none => set_session store sid { messages := [], created_at := now }

/-- `chat_sessions[sid]["messages"].append(m)`.  On the code paths that use it
the session always exists; when it does not, the store is left unchanged. -/
def append_message (store : ChatSessions) (sid : String) (m : Message) : ChatSessions :=
  match lookup_session store sid with
  | some s => set_session store sid { s with messages := s.messages ++ [m] }
  | none => store

/-- The messages of a session (empty when the session is absent). -/
def msgs_of (store : ChatSessions) (sid : String) : List Message :=
  match lookup_session store sid with
  | some s => s.messages
  | none => []

/-- The outcomes of the three external collaborator calls made by one turn:
`stt_service.transcribe_audio` (`some transcript` on success, `none` on
failure with its error and fallback strings), `llm_service.generate_response`
(`some response` on success, else the fallback text used by `app.py`), and
`tts_service.generate_speech` (`some audio_url` on success). -/
structure TurnEnv where
  stt : Option String
  stt_error : String
  stt_fallback : String
  llm : Option String
  llm_fallback : String
  tts : Option String
  tts_error : String
deriving DecidableEq, Repr

/-- The five JSON shapes `agent_chat` can return: the two 400 validation
errors (`app.py` lines 195-211), the 500 transcription-failure reply (lines
226-248), and the two `ConversationResponse` shapes for TTS failure (lines
283-300) and full success (lines 301-316). -/
inductive AgentChatResponse
  | missing_audio (error fallback_audio_message : String)
  | empty_filename (error fallback_audio_message : String)
  | stt_failure (error fallback_response transcription_fallback : String)
  | tts_fallback_reply (error transcription llm_response : String)
      (message_count : Nat) (had_llm_error : Bool)
  | full_success (audio_url transcription llm_response : String)
      (message_count : Nat) (had_llm_error : Bool)
deriving DecidableEq, Repr

/-- The `/agent/chat/<session_id>` endpoint (`app.py` lines 190-318).
`audio` is `none` when no `"audio"` part is in the request and
`some filename` otherwise; all `datetime.now()` timestamps of one turn are
modelled by the single clock value `now`. -/
def agent_chat (store : ChatSessions) (session_id : String) (audio : Option String)
    (env : TurnEnv) (now : Nat) : ChatSessions × AgentChatResponse :=
  match audio with
  | none =>
      (store, .missing_audio "Audio input is required for conversational agent"
        "Audio input is required for this service.")
  | some filename =>
    if filename = "" then
      (store, .empty_filename "No audio file selected" "No audio file was provided.")
    else
      let store1 := get_or_create store session_id now
      match env.stt with
      | none =>
          let user_message := "I\x27m having trouble with speech recognition right now"
          let store2 := append_message store1 session_id
            { role := .user, content := user_message, timestamp := now,
              transcription_error := true }
          (store2, .stt_failure env.stt_error env.stt_fallback user_message)
      | some transcript =>
          let store2 := append_message store1 session_id
            { role := .user, content := transcript, timestamp := now }
          let llm_response :=
            match env.llm with
            | some r => r
            | none => env.llm_fallback
          let store3 := append_message store2 session_id
            { role := .assistant, content := llm_response, timestamp := now,
              llm_error := env.llm.isNone }
          match env.tts with
          | none =>
              (store3, .tts_fallback_reply env.tts_error transcript llm_response
                (msgs_of store3 session_id).length env.llm.isNone)
          | some audio_url =>
              (store3, .full_success audio_url transcript llm_response
                (msgs_of store3 session_id).length env.llm.isNone)

/-- Helper: looking up the key just written by `set_session` yields the value. -/
theorem lookup_set_self (store : ChatSessions) (sid : String) (s : Session) :
    lookup_session (set_session store sid s) sid = some s := by
  induction store with
  | nil => simp [set_session, lookup_session]
  | cons head rest ih =>
    obtain ⟨k, t⟩ := head
    by_cases h : k = sid
    · simp [set_session, h, lookup_session]
    · simp [set_session, h, lookup_session, ih]

/-- Helper: after `get_or_create` the session is present. -/
theorem get_or_create_lookup (store : ChatSessions) (sid : String) (now : Nat) :
    ∃ s, lookup_session (get_or_create store sid now) sid = some s := by
  unfold get_or_create
  cases h : lookup_session store sid with
  | some s =>
    exact ⟨s, h⟩
  | none =>
    exact ⟨_, lookup_set_self store sid _⟩

/-- Helper: appending to a present session extends its message list. -/
theorem msgs_of_append (store : ChatSessions) (sid : String) (m : Message)
    (h : (lookup_session store sid).isSome = true) :
    msgs_of (append_message store sid m) sid = msgs_of store sid ++ [m] := by
  unfold append_message msgs_of
  cases hl : lookup_session store sid with
  | none => rw [hl] at h; simp at h
  | some s => simp [hl, lookup_set_self]

/-- Helper: appending preserves presence. -/
theorem append_lookup_isSome (store : ChatSessions) (sid : String) (m : Message)
    (h : (lookup_session store sid).isSome = true) :
    (lookup_session (append_message store sid m) sid).isSome = true := by
  unfold append_message
  cases hl : lookup_session store sid with
  | none => rw [hl] at h; simp at h
  | some s => simp [lookup_set_self]

/-- C2 counterexample: a single turn whose transcription fails appends only
the flagged user message and returns before any assistant message is stored
(`app.py` lines 226-248), so after N = 1 turn the session holds 1 message,
not 2N = 2. -/
theorem turn_message_count_counterexample :
    (msgs_of (agent_chat [] "s1" (some "rec.webm")
        ⟨none, "err", "fb", some "resp", "lfb", some "url", "terr"⟩ 0).1 "s1").length = 1 ∧
      (msgs_of (agent_chat [] "s1" (some "rec.webm")
        ⟨none, "err", "fb", some "resp", "lfb", some "url", "terr"⟩ 0).1 "s1").length ≠ 2 * 1 := by
  decide

/-- C2 (amended): a turn with a valid audio file whose transcription succeeds
appends exactly one user message followed by one assistant message, whatever
the generation and synthesis outcomes; a turn whose transcription fails
appends exactly one user-role message (flagged `transcription_error`) and no
assistant message.  So after N turns the length is 2N minus the number of
transcription-failed turns. -/
theorem turn_message_appends (store : ChatSessions) (sid fname : String)
    (env : TurnEnv) (now : Nat) (hf : fname ≠ "") :
    (∀ t, env.stt = some t →
      msgs_of (agent_chat store sid (some fname) env now).1 sid =
        msgs_of (get_or_create store sid now) sid ++
          [{ role := .user, content := t, timestamp := now },
           { role := .assistant,
             content := match env.llm with | some r => r | none => env.llm_fallback,
             timestamp := now, llm_error := env.llm.isNone }]) ∧
    (env.stt = none →
      msgs_of (agent_chat store sid (some fname) env now).1 sid =
        msgs_of (get_or_create store sid now) sid ++
          [{ role := .user,
             content := "I\x27m having trouble with speech recognition right now",
             timestamp := now, transcription_error := true }]) := by
  obtain ⟨s1, hs1⟩ := get_or_create_lookup store sid now
  have h1 : (lookup_session (get_or_create store sid now) sid).isSome = true := by
    rw [hs1]; rfl
  constructor
  · intro t ht
    simp only [agent_chat, if_neg hf, ht]
    cases htts : env.tts <;>
      simp only [] <;>
      rw [msgs_of_append _ _ _ (append_lookup_isSome _ _ _ h1), msgs_of_append _ _ _ h1,
        List.append_assoc] <;>
      rfl
  · intro ht
    simp only [agent_chat, if_neg hf, ht]
    rw [msgs_of_append _ _ _ h1]

/-- Witness for the amended C2: a concrete successful-transcription turn with
failed generation and failed synthesis still appends user + assistant. -/
theorem turn_message_appends_witness :
    msgs_of (agent_chat [] "s" (some "a.webm")
        ⟨some "hello", "e", "f", none, "lfb", none, "te"⟩ 3).1 "s" =
      msgs_of (get_or_create [] "s" 3) "s" ++
        [{ role := .user, content := "hello", timestamp := 3 },
         { role := .assistant, content := "lfb", timestamp := 3, llm_error := true }] :=
  (turn_message_appends [] "s" "a.webm"
      ⟨some "hello", "e", "f", none, "lfb", none, "te"⟩ 3 (by decide)).1 "hello" rfl

/-- C7: `get_or_create` is idempotent — a second call with the same id
returns the store (and therefore the Session, its `created_at`, and its
`messages`) unchanged (`app.py` lines 215-221). -/
theorem get_or_create_idempotent (store : ChatSessions) (sid : String) (t1 t2 : Nat) :
    get_or_create (get_or_create store sid t1) sid t2 = get_or_create store sid t1 := by
  cases h : lookup_session store sid with
  | some s =>
    have heq : get_or_create store sid t1 = store := by
      unfold get_or_create; rw [h]
    rw [heq]
    unfold get_or_create; rw [h]
  | none =>
    have heq : get_or_create store sid t1 =
        set_session store sid { messages := [], created_at := t1 } := by
      unfold get_or_create; rw [h]
    rw [heq]
    unfold get_or_create
    rw [lookup_set_self]

/-- `True` exactly on the two 400-level input-validation responses. -/
def is_invalid_input : AgentChatResponse → Bool
  | .missing_audio _ _ => true
  | .empty_filename _ _ => true
  | _ => false

/-- The manufactured fallback reply text carried by a response, if any — only
the transcription-failure 500 response carries one. -/
def fallback_reply_text : AgentChatResponse → Option String
  | .stt_failure _ fb _ => some fb
  | _ => none

/-- C8: a turn with missing audio or an empty filename is rejected with an
input-validation error before the session store is touched: the store is
returned unchanged (no Session created or mutated) and no fallback reply text
is manufactured (`app.py` lines 194-211). -/
theorem invalid_audio_rejected (store : ChatSessions) (sid : String)
    (env : TurnEnv) (now : Nat) :
    ((agent_chat store sid none env now).1 = store ∧
      is_invalid_input (agent_chat store sid none env now).2 = true ∧
      fallback_reply_text (agent_chat store sid none env now).2 = none) ∧
    ((agent_chat store sid (some "") env now).1 = store ∧
      is_invalid_input (agent_chat store sid (some "") env now).2 = true ∧
      fallback_reply_text (agent_chat store sid (some "") env now).2 = none) :=
  ⟨⟨rfl, rfl, rfl⟩, ⟨rfl, rfl, rfl⟩⟩

/-! ## Streaming delivery (`main.py`, `handle_test_request`, Day-21 path) -/

/-- The two socket messages emitted by `stream_audio_chunks` inside
`handle_test_request` (main.py lines 972-995): an `audio_chunk_streamed`
message and the `audio_stream_complete` marker. -/
inductive StreamEvent
  | chunk (audio_chunk : List Char) (chunk_index chunk_size total_chunks : Nat)
  | complete (total_chunks total_size : Nat)
deriving DecidableEq, Repr

/-- Python slicing `l[s:e]` for `0 ≤ s`, `0 ≤ e`. -/
def py_slice (l : List Char) (s e : Nat) : List Char :=
  (l.take e).drop s

/-- `stream_audio_chunks` (main.py lines 970-995): `total_chunks =
len(data) // chunk_size + 1`; for each `i` emit the slice
`data[i*chunk_size : min((i+1)*chunk_size, len(data))]` with 1-based
`chunk_index`, then emit the completion marker carrying `total_chunks` and
`len(data)`. -/
def stream_audio_chunks (data : List Char) (chunk_size : Nat) : List StreamEvent :=
  let total_chunks := data.length / chunk_size + 1
  ((List.range total_chunks).map fun i =>
      let c := py_slice data (i * chunk_size) (min ((i + 1) * chunk_size) data.length)
      StreamEvent.chunk c (i + 1) c.length total_chunks)
    ++ [.complete total_chunks data.length]

/-- The Day-21 test stream with its fixed `chunk_size = 100` (main.py line 969). -/
def day21_stream (data : List Char) : List StreamEvent :=
  stream_audio_chunks data 100

/-- The `chunk_index` values a consumer observes, in emission order. -/
def chunk_indices (evs : List StreamEvent) : List Nat :=
  evs.filterMap fun e =>
    match e with
    | .chunk _ i _ _ => some i
    | _ => none

/-- The chunk payloads a consumer observes, in emission order. -/
def chunk_payloads (evs : List StreamEvent) : List (List Char) :=
  evs.filterMap fun e =>
    match e with
    | .chunk c _ _ _ => some c
    | _ => none

/-- The completion markers among the emitted events. -/
def completion_events (evs : List StreamEvent) : List StreamEvent :=
  evs.filter fun e =>
    match e with
    | .complete _ _ => true
    | _ => false

/-- Helper: each emitted slice is just `take chunk_size` of the remaining data. -/
theorem py_slice_chunk (data : List Char) (cs i : Nat) :
    py_slice data (i * cs) (min ((i + 1) * cs) data.length) =
      (data.drop (i * cs)).take cs := by
  have hadd : (i + 1) * cs = i * cs + cs := by ring
  unfold py_slice
  rw [List.drop_take]
  rcases le_total ((i + 1) * cs) data.length with h | h
  · rw [min_eq_left h]
    congr 1
    omega
  · rw [min_eq_right h]
    rcases le_total (i * cs) data.length with h2 | h2
    · have hlen : (data.drop (i * cs)).length = data.length - i * cs :=
        List.length_drop ..
      rw [List.take_of_length_le (by omega), List.take_of_length_le (by omega)]
    · have hnil : data.drop (i * cs) = [] := List.drop_eq_nil_of_le h2
      rw [hnil]
      simp

/-- Helper: the emitted event list, with each slice in `take`/`drop` form. -/
theorem stream_audio_chunks_eq (data : List Char) (cs : Nat) :
    stream_audio_chunks data cs =
      ((List.range (data.length / cs + 1)).map fun i =>
        StreamEvent.chunk ((data.drop (i * cs)).take cs) (i + 1)
          ((data.drop (i * cs)).take cs).length (data.length / cs + 1))
      ++ [.complete (data.length / cs + 1) data.length] := by
  unfold stream_audio_chunks
  simp only []
  congr 1
  apply List.map_congr_left
  intro i _
  rw [py_slice_chunk]

/-- Helper: the chunk indices of a chunk-map followed by a completion marker. -/
theorem chunk_indices_spec (p : Nat → List Char) (tot sz : Nat) (l : List Nat) :
    chunk_indices
        ((l.map fun i => StreamEvent.chunk (p i) (i + 1) (p i).length tot)
          ++ [.complete tot sz]) =
      l.map (· + 1) := by
  induction l with
  | nil => rfl
  | cons x xs ih =>
    simpa [chunk_indices, List.filterMap_cons] using ih

/-- Helper: the chunk payloads of a chunk-map followed by a completion marker. -/
theorem chunk_payloads_spec (p : Nat → List Char) (tot sz : Nat) (l : List Nat) :
    chunk_payloads
        ((l.map fun i => StreamEvent.chunk (p i) (i + 1) (p i).length tot)
          ++ [.complete tot sz]) =
      l.map p := by
  induction l with
  | nil => rfl
  | cons x xs ih =>
    simpa [chunk_payloads, List.filterMap_cons] using ih

/-- Helper: the only completion marker is the trailing one. -/
theorem completion_events_spec (p : Nat → List Char) (tot sz : Nat) (l : List Nat) :
    completion_events
        ((l.map fun i => StreamEvent.chunk (p i) (i + 1) (p i).length tot)
          ++ [.complete tot sz]) =
      [.complete tot sz] := by
  induction l with
  | nil => rfl
  | cons x xs ih =>
    simpa [completion_events, List.filter_cons] using ih

/-- Helper: joining the first `n` chunks reconstructs the first `n * cs`
elements of the data. -/
theorem join_range_chunks (data : List Char) (cs : Nat) :
    ∀ n : Nat,
      ((List.range n).map fun i => (data.drop (i * cs)).take cs).flatten =
        data.take (n * cs) := by
  intro n
  induction n with
  | zero => simp
  | succ m ih =>
    have hadd : (m + 1) * cs = m * cs + cs := by ring
    rw [List.range_succ, List.map_append, List.flatten_append, ih]
    simp only [List.map_cons, List.map_nil, List.flatten_cons, List.flatten_nil,
      List.append_nil]
    rw [hadd, List.take_add]

/-- C6: for every payload, the Day-21 stream delivers chunk indices
1, 2, 3, … with no gaps, the payloads concatenated in index order equal the
original payload, and exactly one completion marker — carrying the total chunk
count and total size — is emitted, after every chunk. -/
theorem streaming_delivery_contract (data : List Char) :
    chunk_indices (day21_stream data) = List.range' 1 (data.length / 100 + 1) ∧
      (chunk_payloads (day21_stream data)).flatten = data ∧
      completion_events (day21_stream data) =
        [.complete (data.length / 100 + 1) data.length] ∧
      (day21_stream data).getLast? =
        some (.complete (data.length / 100 + 1) data.length) := by
  refine ⟨?_, ?_, ?_, ?_⟩
  · rw [day21_stream, stream_audio_chunks_eq, chunk_indices_spec,
      List.range'_eq_map_range]
    simp [Nat.add_comm]
  · rw [day21_stream, stream_audio_chunks_eq, chunk_payloads_spec,
      join_range_chunks]
    have h1 := Nat.div_add_mod data.length 100
    have h2 : data.length % 100 < 100 := Nat.mod_lt _ (by norm_num)
    exact List.take_of_length_le (by omega)
  · rw [day21_stream, stream_audio_chunks_eq, completion_events_spec]
  · rw [day21_stream, stream_audio_chunks_eq]
    exact List.getLast?_concat _

/-! ## Web search (`services/web_search_service.py`) -/

/-- Python `s.strip()`: whitespace removed from both ends. -/
def py_strip (s : String) : String :=
  String.mk (((s.toList.dropWhile Char.isWhitespace).reverse.dropWhile
    Char.isWhitespace).reverse)

/-- One collected result row (`search_web`, web_search_service.py lines 54-59). -/
structure SearchResult where
  title : String
  snippet : String
  url : String
  source : String
deriving DecidableEq, Repr

/-- The outcome of the DuckDuckGo collaborator as seen by `search_web`:
either the rows its result generator yields (possibly none, e.g. after a rate
limit cut the retry loop short), or an exception escaping the whole `try`. -/
inductive SearchOutcome
  | results (rs : List SearchResult)
  | raised (msg : String)
deriving DecidableEq, Repr

/-- `_get_knowledge_based_response` (web_search_service.py lines 123-155):
keyword-routed canned answers used when the live search produced nothing. -/
def get_knowledge_based_response (query : String) : String :=
  let query_lower := py_strip (py_lower query)
  if ["ai", "artificial intelligence", "machine learning", "ml"].any
      (fun t => py_in t query_lower) then
    "AI (Artificial Intelligence) refers to computer systems that can perform tasks typically requiring human intelligence. This includes machine learning, natural language processing, computer vision, and robotics. Modern AI like ChatGPT, Google\x27s Gemini, and other LLMs use deep learning neural networks trained on vast datasets."
  else if ["llm", "large language model", "language model"].any
      (fun t => py_in t query_lower) then
    "LLM stands for Large Language Model. These are AI systems trained on massive amounts of text data to understand and generate human-like responses. Examples include GPT (OpenAI), Claude (Anthropic), Gemini (Google), and LLaMA (Meta). They can help with writing, coding, analysis, and conversation."
  else if ["chatgpt", "gpt", "openai"].any (fun t => py_in t query_lower) then
    "ChatGPT is an AI chatbot developed by OpenAI, based on their GPT (Generative Pre-trained Transformer) language models. It can engage in conversations, answer questions, help with writing, coding, and various other tasks using natural language processing."
  else if ["programming", "coding", "development", "software"].any
      (fun t => py_in t query_lower) then
    "Programming is the process of creating computer software using programming languages like Python, JavaScript, Java, C++, and others. It involves writing instructions that computers can execute to solve problems and create applications."
  else if ["python", "javascript", "java", "c++", "html", "css"].any
      (fun t => py_in t query_lower) then
    "You\x27re asking about " ++ query ++ "! This appears to be related to programming or web development. These are popular technologies used to build software applications and websites. Would you like more specific information about any particular aspect?"
  else if ["science", "physics", "chemistry", "biology"].any
      (fun t => py_in t query_lower) then
    "You\x27re asking about " ++ query ++ " in science! This is a broad field with many fascinating aspects. Science helps us understand the natural world through observation, experimentation, and analysis. What specific area interests you most?"
  else if ["history", "historical", "past"].any (fun t => py_in t query_lower) then
    "You\x27re asking about " ++ query ++ " in history! History helps us understand past events, cultures, and civilizations. It provides valuable lessons and context for understanding our present world. What particular period or aspect interests you?"
  else if ["weather", "climate", "temperature"].any (fun t => py_in t query_lower) then
    "I can help with weather information! Try asking about the weather in a specific city, like \x27What\x27s the weather in New York?\x27 I can provide current conditions, forecasts, and more detailed weather analysis."
  else
    "I\x27d be happy to help you learn about \x27" ++ query ++ "\x27! While I can\x27t search the web right now, I can provide general information. Could you ask a more specific question about what aspect of \x27" ++ query ++ "\x27 interests you most?"

/-- The dict returned by `WebSearchService.search_web`; Python keys that a
branch omits are modelled as `none` / `false`. -/
structure SearchWebReturn where
  success : Bool
  results : List SearchResult
  query : String
  result_count : Nat
  search_engine : Option String
  fallback_needed : Bool
  fallback_response : Option String
  error : Option String
deriving DecidableEq, Repr

/-- `WebSearchService.search_web` (web_search_service.py lines 21-112).
The retry loop asks DuckDuckGo for at most `min(max_results, 3)` rows and
stops collecting at `max_results`, so the collected rows are
`rs.take (min max_results 3)`.  Zero collected rows (lines 80-91) and an
escaping exception (lines 101-112) both return `success = True` with the
knowledge-based fallback; only a non-empty collection returns the plain
success shape (lines 93-99). -/
def search_web (query : String) (max_results : Nat) (outcome : SearchOutcome) :
    SearchWebReturn :=
  match outcome with
  | .raised e =>
      { success := true
        results := []
        query := query
        result_count := 0
        search_engine := none
        fallback_needed := true
        fallback_response := some (get_knowledge_based_response query)
        error := some ("Web search temporarily unavailable: " ++ e) }
  | .results rs =>
      let collected := rs.take (min max_results 3)
      if collected.isEmpty then
        { success := true
          results := []
          query := query
          result_count := 0
          search_engine := some "Knowledge Base (Fallback)"
          fallback_needed := true
          fallback_response := some (get_knowledge_based_response query)
          error := some "Search temporarily unavailable - using built-in knowledge" }
      else
        { success := true
          results := collected
          query := query
          result_count := collected.length
          search_engine := some "DuckDuckGo"
          fallback_needed := false
          fallback_response := none
          error := none }

/-- C9: `search_web` reports `success = True` on every path — exception,
rate-limited/empty search, or results — so the flag never reveals a failure;
whenever no results are delivered, the failure is signalled only through
`fallback_needed`, `fallback_response` and `error`. -/
theorem search_web_success_invariant (query : String) (n : Nat) (o : SearchOutcome) :
    (search_web query n o).success = true ∧
      ((search_web query n o).results = [] →
        (search_web query n o).fallback_needed = true ∧
          ((search_web query n o).fallback_response).isSome = true ∧
          ((search_web query n o).error).isSome = true) := by
  cases o with
  | raised e => exact ⟨rfl, fun _ => ⟨rfl, rfl, rfl⟩⟩
  | results rs =>
    unfold search_web
    by_cases h : (rs.take (min n 3)).isEmpty
    · simp [h]
    · simp only [h]
      refine ⟨rfl, fun habs => absurd ?_ h⟩
      simp only [Bool.if_false_right] at habs ⊢
      rw [List.isEmpty_iff]
      simpa using habs

/-- Witness for C9: a raised exception still yields `success = True`, with
the failure visible only in the fallback fields. -/
theorem search_web_success_invariant_witness :
    (search_web "what is ai" 5 (.raised "boom")).success = true ∧
      (search_web "what is ai" 5 (.raised "boom")).fallback_needed = true ∧
      ((search_web "what is ai" 5 (.raised "boom")).fallback_response).isSome = true ∧
      ((search_web "what is ai" 5 (.raised "boom")).error).isSome = true :=
  ⟨(search_web_success_invariant "what is ai" 5 (.raised "boom")).1,
   (search_web_success_invariant "what is ai" 5 (.raised "boom")).2 rfl⟩

/-! ## Text-to-speech persona voices (`services/tts_service.py`) -/

/-- Fuel-indexed worker for Python `str.replace`: at each position, a
non-overlapping left-to-right match of `pat` is replaced by `rep` and the
scan continues after the match.  The fuel starts at the list length, which
bounds the number of scan steps since every step consumes at least one
element (the sources only call this with non-empty patterns). -/
def list_replace_go (pat rep : List Char) : Nat → List Char → List Char
  | 0, l => l
  | _ + 1, [] => []
  | fuel + 1, c :: rest =>
      if pat.isPrefixOf (c :: rest) && !pat.isEmpty then
        rep ++ list_replace_go pat rep fuel ((c :: rest).drop pat.length)
      else
        c :: list_replace_go pat rep fuel rest

/-- Python `s.replace(pat, rep)` for non-empty `pat`. -/
def py_replace (s pat rep : String) : String :=
  String.mk (list_replace_go pat.toList rep.toList s.toList.length s.toList)

/-- Python `s.upper()` (ASCII). -/
def py_upper (s : String) : String :=
  String.mk (s.toList.map Char.toUpper)

/-- Python `s.capitalize()` (ASCII): first character uppercased, the rest
lowercased. -/
def py_capitalize (s : String) : String :=
  match s.toList with
  | [] => ""
  | c :: rest => String.mk (c.toUpper :: rest.map Char.toLower)

/-- One entry of the `persona_config` dict inside `generate_speech`
(tts_service.py lines 77-94).  The numeric adjustments are the integer
percentages the source stores. -/
structure PersonaVoiceConfig where
  voice_id : String
  pitch_adjustment : Int
  speed_adjustment : Int
  style : String
  announce_change : String
  sound_effects : List String
deriving DecidableEq, Repr

/-- `persona_config["pirate"]` (tts_service.py lines 78-85). -/
def pirate_persona_config : PersonaVoiceConfig :=
  { voice_id := "en-US-davis"
    pitch_adjustment := -15
    speed_adjustment := -10
    style := "gruff"
    announce_change := "Arrr! Switching to me pirate voice now, matey!"
    sound_effects := ["ocean_waves", "ship_creaking"] }

/-- `persona_config["default"]` (tts_service.py lines 86-93). -/
def default_persona_config : PersonaVoiceConfig :=
  { voice_id := "en-US-sarah"
    pitch_adjustment := 0
    speed_adjustment := 0
    style := "friendly"
    announce_change := "Switching back to my default voice."
    sound_effects := [] }

/-- `persona_config.get(persona, persona_config["default"])`
(tts_service.py line 96): lookup among the two keys with a guaranteed
fallback to the `"default"` entry. -/
def tts_persona_config (persona : String) : PersonaVoiceConfig :=
  if persona = "pirate" then pirate_persona_config
  else if persona = "default" then default_persona_config
  else default_persona_config

/-- `_apply_persona_text_effects` (tts_service.py lines 225-238): the pirate
persona stretches punctuation and uppercases the pirate vocabulary; every
other persona passes the text through. -/
def apply_persona_text_effects (text persona : String) (config : PersonaVoiceConfig) :
    String :=
  if persona = "pirate" then
    let t := py_replace text "." "... "
    let t := py_replace t "," ", pause, "
    ["arrr", "matey", "ahoy", "ye", "treasure", "ship", "sea", "captain"].foldl
      (fun acc w => py_replace (py_replace acc w (py_upper w)) (py_capitalize w) (py_upper w)) t
  else text

/-- The nondeterministic surroundings of one `generate_speech` call: whether
a Murf client is configured, the audio URL the Murf call produces on success,
and the gTTS outcome with its hash/uuid-derived output filename. -/
structure TTSEnv where
  murf_configured : Bool
  murf_audio_url : Option String
  gtts_ok : Bool
  gtts_filename : String
  gtts_error : String
deriving DecidableEq, Repr

/-- The dict returned by `generate_speech`: the early validation failure
(lines 69-73), the Murf success shape of `_generate_murf_speech_with_persona`
(lines 157-169, with the integer adjustments in place of the derived float
multipliers), and the gTTS shapes of `_generate_gtts_speech_with_persona`
(lines 204-223; `voice_effects_applied` is always `false` because
`_apply_voice_effects` always returns `None`). -/
inductive TTSResultDict
  | failure (error : String)
  | murf_persona (audio_url voice_used : String) (character_count : Nat)
      (persona_config : PersonaVoiceConfig) (pitch_adjustment speed_adjustment : Int)
  | gtts_persona (filename voice_used : String) (character_count : Nat)
      (persona : String) (persona_config : PersonaVoiceConfig)
      (voice_effects_applied : Bool) (original_text modified_text : String)
deriving DecidableEq, Repr

/-- `_generate_gtts_speech_with_persona` (tts_service.py lines 178-223). -/
def generate_gtts_speech_with_persona (text persona : String)
    (config : PersonaVoiceConfig) (env : TTSEnv) : TTSResultDict :=
  if env.gtts_ok then
    .gtts_persona env.gtts_filename ("gTTS-" ++ persona ++ "-enhanced") text.length
      persona config false text (apply_persona_text_effects text persona config)
  else
    .failure ("gTTS with persona error: " ++ env.gtts_error)

/-- `TTSService.generate_speech` (tts_service.py lines 68-112).  The caller
passes `voice_id`, but line 97 reassigns it from the persona configuration
before any use; Murf is tried first when configured, with gTTS as fallback. -/
def generate_speech (text voice_id persona : String) (env : TTSEnv) : TTSResultDict :=
  if py_strip text = "" then
    .failure "No text provided for speech generation"
  else
    let text := py_strip text
    let config := tts_persona_config persona
    let voice_id := config.voice_id
    if env.murf_configured then
      match env.murf_audio_url with
      | some url =>
          .murf_persona url voice_id text.length config
            config.pitch_adjustment config.speed_adjustment
      | none => generate_gtts_speech_with_persona text persona config env
    else
      generate_gtts_speech_with_persona text persona config env

/-- C10: the caller-supplied `voice_id` has no effect on `generate_speech` —
two calls with the same text, persona and collaborator outcomes but different
`voice_id` arguments return identical dicts, because the voice is always
taken from the persona configuration; unrecognized personas fall back to the
`"default"` configuration. -/
theorem voice_id_has_no_effect (text v1 v2 persona : String) (env : TTSEnv) :
    generate_speech text v1 persona env = generate_speech text v2 persona env ∧
      (persona ≠ "pirate" → tts_persona_config persona = default_persona_config) := by
  refine ⟨rfl, fun h => ?_⟩
  unfold tts_persona_config
  rw [if_neg h]
  split_ifs <;> rfl

/-- Witness for C10: an unrecognized persona (`"robot"`), two different
voice ids, identical results through the default persona configuration. -/
theorem voice_id_has_no_effect_witness :
    generate_speech "Hello there" "en-US-natalie" "robot"
        ⟨true, some "https://murf.example/a.mp3", true, "gtts-x.mp3", "e"⟩ =
      generate_speech "Hello there" "en-US-ken" "robot"
        ⟨true, some "https://murf.example/a.mp3", true, "gtts-x.mp3", "e"⟩ ∧
      tts_persona_config "robot" = default_persona_config :=
  ⟨(voice_id_has_no_effect "Hello there" "en-US-natalie" "en-US-ken" "robot"
      ⟨true, some "https://murf.example/a.mp3", true, "gtts-x.mp3", "e"⟩).1,
   (voice_id_has_no_effect "Hello there" "en-US-natalie" "en-US-ken" "robot"
      ⟨true, some "https://murf.example/a.mp3", true, "gtts-x.mp3", "e"⟩).2
     (by decide)⟩
